import Mathlib

/-!
Shallow embedding of `src/torchlite/nn/learners/cores.py` (Torchlite):
the `BaseCore` abstract interface, `ClassifierCore`, and `SRGanCore`,
together with the `AverageMeter` running-statistics utility they use.

Scalars (loss values, `loss.data[0]`) are modelled as rationals `ℚ`.
Tensors, model parameters and the opaque collaborators (models,
optimizers, criteria) are type/function parameters of each core, as the
spec treats them as opaque callables.  Python dicts with string keys are
modelled as association lists with Python's `dict.update` semantics
(replace in place when the key exists, append otherwise).  Autograd side
effects (`zero_grad`, `backward`, `optimizer.step`) are recorded in an
explicit event trace, and an optimizer step is modelled as a function
from the current parameters and the backpropagated loss value to the new
parameters.
-/

namespace Torchlite

/-- A Python dict with string keys, in insertion order. -/
abbrev PyDict (α : Type) := List (String × α)

/-- `d.update({k: v})` for a Python dict: replace the value in place when
the key is already present, append the pair otherwise. -/
def dictUpdate {α : Type} (d : PyDict α) (k : String) (v : α) : PyDict α :=
  if (d.map Prod.fst).contains k then
    d.map (fun p => if p.1 = k then (k, v) else p)
  else
    d ++ [(k, v)]

/-- Lookup in a Python dict. -/
def dictGet {α : Type} (d : PyDict α) (k : String) : Option α :=
  (d.find? (fun p => p.1 = k)).map Prod.snd

/-- The key set (in insertion order) of a Python dict. -/
def dictKeys {α : Type} (d : PyDict α) : List String :=
  d.map Prod.fst

/-- The log bundle `self.logs` of a core: a dict from the top-level keys
(`batch_logs`, `epoch_logs`) to metric dicts. -/
abbrev Logs := PyDict (PyDict ℚ)

/-- Modelled from the spec: `tensor_tools.AverageMeter`
(`torchlite/nn/tools/tensor_tools.py` is not under `src/`; only its call
sites in `cores.py` are).  Per spec §4.1 and §3 it owns a running sum, a
running count, a decay-weighted exponential moving average and the
debiasing step counter; it is mutated only via `update(value)` and read
via `avg` / `debias_loss`. -/
structure AverageMeter where
  decay : ℚ
  sum : ℚ
  count : ℕ
  ema : ℚ
deriving Repr, DecidableEq

namespace AverageMeter

/-- A freshly constructed `AverageMeter()` with the given decay: no
observations yet. -/
def fresh (decay : ℚ) : AverageMeter :=
  { decay := decay, sum := 0, count := 0, ema := 0 }

/-- Modelled from the spec: `update(value)` appends one observation,
feeding both the arithmetic running average and the decay-weighted
exponential moving average. -/
def update (m : AverageMeter) (v : ℚ) : AverageMeter :=
  { m with
    sum := m.sum + v
    count := m.count + 1
    ema := m.decay * m.ema + (1 - m.decay) * v }

/-- Modelled from the spec: `avg` is the arithmetic mean of all
observations since the last reset (with no observation yet it is unread;
`ℚ` division by zero yields `0`, matching the spec's "returns 0 or is
unread"). -/
def avg (m : AverageMeter) : ℚ :=
  m.sum / (m.count : ℚ)

/-- Modelled from the spec: `debias_loss` is the exponential moving
average divided by the bias-correction factor `1 - decay^n`, with `n = 0`
special-cased as "no value yet". -/
def debias_loss (m : AverageMeter) : ℚ :=
  if m.count = 0 then 0 else m.ema / (1 - m.decay ^ m.count)

end AverageMeter

/-- One autograd/optimizer side effect of a batch, in program order:
`model.zero_grad()` or `optimizer.zero_grad()`, `loss.backward(...)`,
`optimizer.step()`.  The `who` tag names the model or optimizer acted
on. -/
inductive Event where
  | zero_grad (who : String)
  | backward (loss : ℚ) (retain_graph : Bool)
  | optim_step (who : String)
deriving Repr, DecidableEq

/-- The Python exceptions raised by this module. -/
inductive PyExc where
  | NotImplementedError
deriving Repr, DecidableEq

/-- `BaseCore`: the abstract capability interface.  It has no state; every
operation raises `NotImplementedError` (modelled as `Except.error`). -/
structure BaseCore where
  unit : Unit := ()
deriving Repr, DecidableEq

namespace BaseCore

/-- `BaseCore.on_train_mode`: raises `NotImplementedError`. -/
def on_train_mode (_ : BaseCore) : Except PyExc Unit :=
  Except.error PyExc.NotImplementedError

/-- `BaseCore.on_eval_mode`: raises `NotImplementedError`. -/
def on_eval_mode (_ : BaseCore) : Except PyExc Unit :=
  Except.error PyExc.NotImplementedError

/-- `BaseCore.on_new_epoch`: raises `NotImplementedError`. -/
def on_new_epoch (_ : BaseCore) : Except PyExc Unit :=
  Except.error PyExc.NotImplementedError

/-- `BaseCore.to_gpu`: raises `NotImplementedError`. -/
def to_gpu (_ : BaseCore) : Except PyExc Unit :=
  Except.error PyExc.NotImplementedError

/-- `BaseCore.get_models` (property): raises `NotImplementedError`. -/
def get_models (_ : BaseCore) : Except PyExc (PyDict Unit) :=
  Except.error PyExc.NotImplementedError

/-- `BaseCore.get_logs` (property): raises `NotImplementedError`. -/
def get_logs (_ : BaseCore) : Except PyExc Logs :=
  Except.error PyExc.NotImplementedError

/-- `BaseCore.on_forward_batch`: raises `NotImplementedError`. -/
def on_forward_batch (_ : BaseCore) (_step : String) (_inputs : ℚ)
    (_targets : Option ℚ) : Except PyExc ℚ :=
  Except.error PyExc.NotImplementedError

end BaseCore

/-- `ClassifierCore`: the single-model supervised core.  `P` is the type
of the model's parameter collection, `T` the tensor type.  The model is a
function from parameters and input batch to logits; the criterion maps
logits and targets to a scalar loss; the optimizer step maps the current
parameters and the backpropagated loss to new parameters. -/
structure ClassifierCore (P T : Type) where
  crit : T → T → ℚ
  optim : P → ℚ → P
  model : P → T → T
  params : P
  logs : Logs
  avg_meter : AverageMeter
  decay : ℚ

namespace ClassifierCore

/-- `ClassifierCore.__init__`: stores the collaborators, `self.logs = {}`
and a fresh `AverageMeter`. -/
def init {P T : Type} (model : P → T → T) (optim : P → ℚ → P)
    (crit : T → T → ℚ) (params : P) (decay : ℚ) : ClassifierCore P T :=
  { crit := crit, optim := optim, model := model, params := params
    logs := [], avg_meter := AverageMeter.fresh decay, decay := decay }

/-- `ClassifierCore.get_logs` (property): returns `self.logs`. -/
def get_logs {P T : Type} (c : ClassifierCore P T) : Logs :=
  c.logs

/-- `ClassifierCore.on_new_epoch`: `self.logs = {}` and a fresh
`AverageMeter`. -/
def on_new_epoch {P T : Type} (c : ClassifierCore P T) : ClassifierCore P T :=
  { c with logs := [], avg_meter := AverageMeter.fresh c.decay }

/-- `ClassifierCore.on_forward_batch`: forward pass always; loss, meter
update and `batch_logs` when `step != "prediction"`; zero-grad, backward,
optimizer step and `epoch_logs["train loss"]` when `step == "training"`;
else `epoch_logs["valid loss"]`.  Returns the logits, the mutated core,
and the autograd event trace. -/
def on_forward_batch {P T : Type} (c : ClassifierCore P T) (step : String)
    (inputs targets : T) : T × ClassifierCore P T × List Event :=
  let logits := c.model c.params inputs
  if step ≠ "prediction" then
    let loss := c.crit logits targets
    let avg_meter := c.avg_meter.update loss
    let logs := dictUpdate c.logs ("batch_logs") [(("loss"), loss)]
    if step = "training" then
      let params := c.optim c.params loss
      let logs := dictUpdate logs ("epoch_logs")
        [(("train loss"), avg_meter.debias_loss)]
      (logits,
       { c with params := params, avg_meter := avg_meter, logs := logs },
       [Event.zero_grad ("optim"), Event.backward loss false,
        Event.optim_step ("optim")])
    else
      let logs := dictUpdate logs ("epoch_logs")
        [(("valid loss"), avg_meter.debias_loss)]
      (logits, { c with avg_meter := avg_meter, logs := logs }, [])
  else
    (logits, c, [])

end ClassifierCore

/-- `SRGanCore`: the dual-model adversarial core.  `G`/`D` are the
parameter-collection types of the generator and the discriminator, `T`
the tensor type.  `netG`/`netD` are the two networks as functions from
their parameters and an input tensor to an output tensor; `g_optim` and
`d_optim` are the optimizer steps; `g_criterion` is the composite
generator criterion `(eps, d_sr_out, sr_images, hr_images) ->
(mse, adversarial, vgg, tv)`; `binary_cross_entropy`, `ones_like` and
`zeros_like` model `F.binary_cross_entropy`, `torch.ones_like` and
`torch.zeros_like`. -/
structure SRGanCore (G D T : Type) where
  g_criterion : ℚ → T → T → T → ℚ × ℚ × ℚ × ℚ
  d_optim : D → ℚ → D
  g_optim : G → ℚ → G
  netD : D → T → T
  netG : G → T → T
  dParams : D
  gParams : G
  binary_cross_entropy : T → T → ℚ
  ones_like : T → T
  zeros_like : T → T
  eps : ℚ
  logs : Logs
  g_avg_meter : AverageMeter
  d_avg_meter : AverageMeter
  mse_loss_meter : AverageMeter
  adversarial_loss_meter : AverageMeter
  vgg_loss_meter : AverageMeter
  tv_loss_meter : AverageMeter
  decay : ℚ

namespace SRGanCore

/-- `SRGanCore.get_logs` (property): returns `self.logs`. -/
def get_logs {G D T : Type} (c : SRGanCore G D T) : Logs :=
  c.logs

/-- `SRGanCore.on_new_epoch`: `self.logs = {}` and six fresh
`AverageMeter`s. -/
def on_new_epoch {G D T : Type} (c : SRGanCore G D T) : SRGanCore G D T :=
  { c with
    logs := []
    g_avg_meter := AverageMeter.fresh c.decay
    d_avg_meter := AverageMeter.fresh c.decay
    mse_loss_meter := AverageMeter.fresh c.decay
    adversarial_loss_meter := AverageMeter.fresh c.decay
    vgg_loss_meter := AverageMeter.fresh c.decay
    tv_loss_meter := AverageMeter.fresh c.decay }

/-- `SRGanCore._update_loss_logs`: update the six running averages, then
overwrite `batch_logs` with the instantaneous `g_loss`/`d_loss` and
`epoch_logs` with the six cumulative averages to date. -/
def _update_loss_logs {G D T : Type} (c : SRGanCore G D T)
    (g_loss d_loss mse_loss adversarial_loss vgg_loss tv_loss : ℚ) :
    SRGanCore G D T :=
  let g_avg_meter := c.g_avg_meter.update g_loss
  let d_avg_meter := c.d_avg_meter.update d_loss
  let mse_loss_meter := c.mse_loss_meter.update mse_loss
  let adversarial_loss_meter := c.adversarial_loss_meter.update adversarial_loss
  let vgg_loss_meter := c.vgg_loss_meter.update vgg_loss
  let tv_loss_meter := c.tv_loss_meter.update tv_loss
  let logs := dictUpdate c.logs ("batch_logs")
    [(("g_loss"), g_loss), (("d_loss"), d_loss)]
  let logs := dictUpdate logs ("epoch_logs")
    [(("generator"), g_avg_meter.avg),
     (("discriminator"), d_avg_meter.avg),
     (("mse"), mse_loss_meter.avg),
     (("adversarial"), adversarial_loss_meter.avg),
     (("vgg"), vgg_loss_meter.avg),
     (("tv"), tv_loss_meter.avg)]
  { c with
    logs := logs
    g_avg_meter := g_avg_meter
    d_avg_meter := d_avg_meter
    mse_loss_meter := mse_loss_meter
    adversarial_loss_meter := adversarial_loss_meter
    vgg_loss_meter := vgg_loss_meter
    tv_loss_meter := tv_loss_meter }

/-- `SRGanCore._on_eval`: `sr_images = self.netG(images)`, returned. -/
def _on_eval {G D T : Type} (c : SRGanCore G D T) (images : T) : T :=
  c.netG c.gParams images

/-- `SRGanCore._on_validation`: `sr_images = self.netG(lr_images)`,
returned; `hr_images` is accepted but never used. -/
def _on_validation {G D T : Type} (c : SRGanCore G D T)
    (lr_images : T) (_hr_images : T) : T :=
  c.netG c.gParams lr_images

/-- `SRGanCore._optimize`: `model.zero_grad()`,
`loss.backward(retain_graph=retain_graph)`, `optim.step()`.  Returns the
optimizer-stepped parameters and the event trace; `model_tag`/`optim_tag`
name the model and optimizer for the trace. -/
def _optimize {P : Type} (model_tag optim_tag : String) (params : P)
    (optim : P → ℚ → P) (loss : ℚ) (retain_graph : Bool) :
    P × List Event :=
  (optim params loss,
   [Event.zero_grad model_tag, Event.backward loss retain_graph,
    Event.optim_step optim_tag])

/-- `SRGanCore._on_training`: phase D — generator forward, discriminator
outputs on real and synthetic batches, `d_loss` as the sum of the two
binary cross-entropies, optimize D retaining the graph; phase G — the
composite generator criterion on the *same* `d_sr_out`, `g_loss` as the
sum of the four terms, optimize G; then update the loss logs and return
`sr_images`. -/
def _on_training {G D T : Type} (c : SRGanCore G D T)
    (lr_images hr_images : T) : T × SRGanCore G D T × List Event :=
  let sr_images := c.netG c.gParams lr_images
  let d_hr_out := c.netD c.dParams hr_images
  let d_sr_out := c.netD c.dParams sr_images
  let d_hr_loss := c.binary_cross_entropy d_hr_out (c.ones_like d_hr_out)
  let d_sr_loss := c.binary_cross_entropy d_sr_out (c.zeros_like d_sr_out)
  let d_loss := d_hr_loss + d_sr_loss
  let dRes := _optimize ("netD") ("d_optim") c.dParams c.d_optim d_loss true
  let gl := c.g_criterion c.eps d_sr_out sr_images hr_images
  let mse_loss := gl.1
  let adversarial_loss := gl.2.1
  let vgg_loss := gl.2.2.1
  let tv_loss := gl.2.2.2
  let g_loss := mse_loss + adversarial_loss + vgg_loss + tv_loss
  let gRes := _optimize ("netG") ("g_optim") c.gParams c.g_optim g_loss false
  let c' := _update_loss_logs
    { c with dParams := dRes.1, gParams := gRes.1 }
    g_loss d_loss mse_loss adversarial_loss vgg_loss tv_loss
  (sr_images, c', dRes.2 ++ gRes.2)

/-- `SRGanCore.on_forward_batch`: `self.logs = {}` first, then dispatch on
`step`; any step outside `{"training", "validation", "eval"}` falls
through and returns `None`. -/
def on_forward_batch {G D T : Type} (c : SRGanCore G D T) (step : String)
    (inputs targets : T) : Option T × SRGanCore G D T × List Event :=
  let c := { c with logs := [] }
  if step = "training" then
    let r := c._on_training inputs targets
    (some r.1, r.2.1, r.2.2)
  else if step = "validation" then
    (some (c._on_validation inputs targets), c, [])
  else if step = "eval" then
    (some (c._on_eval inputs), c, [])
  else
    (none, c, [])

/-- `SRGanCore.__init__`: stores the collaborators, sets
`self.eps = 1e-12` and calls `self.on_new_epoch()`. -/
def init {G D T : Type} (generator : G → T → T) (discriminator : D → T → T)
    (g_optimizer : G → ℚ → G) (d_optimizer : D → ℚ → D)
    (g_criterion : ℚ → T → T → T → ℚ × ℚ × ℚ × ℚ)
    (bce : T → T → ℚ) (ones : T → T) (zeros : T → T)
    (gParams : G) (dParams : D) (decay : ℚ) : SRGanCore G D T :=
  on_new_epoch
    { g_criterion := g_criterion
      d_optim := d_optimizer
      g_optim := g_optimizer
      netD := discriminator
      netG := generator
      dParams := dParams
      gParams := gParams
      binary_cross_entropy := bce
      ones_like := ones
      zeros_like := zeros
      eps := 1 / 1000000000000
      logs := []
      g_avg_meter := AverageMeter.fresh decay
      d_avg_meter := AverageMeter.fresh decay
      mse_loss_meter := AverageMeter.fresh decay
      adversarial_loss_meter := AverageMeter.fresh decay
      vgg_loss_meter := AverageMeter.fresh decay
      tv_loss_meter := AverageMeter.fresh decay
      decay := decay }

end SRGanCore

/-- A concrete `SRGanCore` over rational "tensors": generator `p + t`,
discriminator `p * t + p` (so its output genuinely depends on its
parameters), optimizer steps `p - loss`, a criterion that echoes its
arguments, initial parameters `1` and `2`, decay `9/10`. -/
def demoGan : SRGanCore ℚ ℚ ℚ :=
  SRGanCore.init (fun p t => p + t) (fun p t => p * t + p)
    (fun p l => p - l) (fun p l => p - l)
    (fun e d s h => (d + e, s, h, 1))
    (fun o t => o - t) (fun _ => 1) (fun _ => 0)
    1 2 (9 / 10)

end Torchlite

namespace Torchlite

/-- C1: on a training batch, `SRGanCore` computes `d_loss` as the sum of
the binary cross-entropy of the discriminator's real-image output against
an all-ones target and of its output on generator-produced images against
an all-zeros target; the discriminator's zero-grad/backward/step all
happen before the generator phase (event trace order); the generator
criterion is evaluated on the same `d_sr_out` computed from the
pre-update discriminator parameters (never recomputed after the
discriminator step); and the synthetic `sr_images` tensor is returned. -/
theorem srgan_training_step_protocol {G D T : Type} (c : SRGanCore G D T)
    (lr_images hr_images : T) :
    let sr_images := c.netG c.gParams lr_images
    let d_hr_out := c.netD c.dParams hr_images
    let d_sr_out := c.netD c.dParams sr_images
    let d_loss := c.binary_cross_entropy d_hr_out (c.ones_like d_hr_out) +
      c.binary_cross_entropy d_sr_out (c.zeros_like d_sr_out)
    let gl := c.g_criterion c.eps d_sr_out sr_images hr_images
    let g_loss := gl.1 + gl.2.1 + gl.2.2.1 + gl.2.2.2
    let r := c.on_forward_batch ("training") lr_images hr_images
    r.1 = some sr_images ∧
    r.2.1.dParams = c.d_optim c.dParams d_loss ∧
    r.2.1.gParams = c.g_optim c.gParams g_loss ∧
    r.2.2 = [Event.zero_grad ("netD"), Event.backward d_loss true,
      Event.optim_step ("d_optim"), Event.zero_grad ("netG"),
      Event.backward g_loss false, Event.optim_step ("g_optim")] :=
  ⟨rfl, rfl, rfl, rfl⟩

/-- C2: after one `on_forward_batch("training", ...)` call, the
`SRGanCore` log bundle has exactly the top-level keys `batch_logs` and
`epoch_logs`; `batch_logs` has exactly the keys `g_loss`, `d_loss` and
`epoch_logs` exactly the keys `generator`, `discriminator`, `mse`,
`adversarial`, `vgg`, `tv`. -/
theorem srgan_training_log_keys {G D T : Type} (c : SRGanCore G D T)
    (lr_images hr_images : T) :
    let c' := (c.on_forward_batch ("training") lr_images hr_images).2.1
    dictKeys c'.get_logs = [("batch_logs"), ("epoch_logs")] ∧
    (dictGet c'.get_logs ("batch_logs")).map dictKeys =
      some [("g_loss"), ("d_loss")] ∧
    (dictGet c'.get_logs ("epoch_logs")).map dictKeys =
      some [("generator"), ("discriminator"), ("mse"), ("adversarial"),
        ("vgg"), ("tv")] :=
  ⟨rfl, rfl, rfl⟩

/-- C3 counterexample: an eval-step `on_forward_batch` call does mutate
the log bundle — `SRGanCore.on_forward_batch` sets `self.logs = {}`
before dispatching, so on a core holding the logs of a previous training
batch, `get_logs` differs before and after the eval call. -/
theorem srgan_eval_mutates_logs_cex :
    ¬ (({ demoGan with
          logs := [(("batch_logs"), [(("g_loss"), (1 : ℚ))])] }.on_forward_batch
            ("eval") 1 0).2.1.get_logs =
        ({ demoGan with
          logs := [(("batch_logs"), [(("g_loss"), (1 : ℚ))])] } :
            SRGanCore ℚ ℚ ℚ).get_logs) := by
  decide

/-- C3 amended: `on_forward_batch("eval", [images])` returns the
generator's output on `images`, and the only mutation it performs is
resetting the log bundle to the empty mapping: the resulting core is
exactly the original with `logs := {}` (all model parameters and meters
unchanged), the event trace is empty, so `get_logs` is unchanged exactly
when it was already empty. -/
theorem srgan_eval_protocol {G D T : Type} (c : SRGanCore G D T)
    (images targets : T) :
    (c.on_forward_batch ("eval") images targets).1 =
      some (c.netG c.gParams images) ∧
    (c.on_forward_batch ("eval") images targets).2.1 = { c with logs := [] } ∧
    (c.on_forward_batch ("eval") images targets).2.2 = [] :=
  ⟨rfl, rfl, rfl⟩

/-- C4: `ClassifierCore.on_forward_batch` always returns the model's
logits on the inputs; for a non-prediction step it computes the criterion
loss, updates the running average with it and records
`batch_logs["loss"]`; for `training` it zeroes gradients, backpropagates,
applies the optimizer step and sets `epoch_logs["train loss"]` to the
debiased average; for `validation` it sets `epoch_logs["valid loss"]` to
the debiased average and performs no gradient events. -/
theorem classifier_forward_batch_protocol {P T : Type}
    (c : ClassifierCore P T) (inputs targets : T) :
    let logits := c.model c.params inputs
    let loss := c.crit logits targets
    let m := c.avg_meter.update loss
    let batch := dictUpdate c.logs ("batch_logs") [(("loss"), loss)]
    let rt := c.on_forward_batch ("training") inputs targets
    let rv := c.on_forward_batch ("validation") inputs targets
    let rp := c.on_forward_batch ("prediction") inputs targets
    (rt.1 = logits ∧
     rt.2.1.params = c.optim c.params loss ∧
     rt.2.1.avg_meter = m ∧
     rt.2.1.logs = dictUpdate batch ("epoch_logs")
       [(("train loss"), m.debias_loss)] ∧
     rt.2.2 = [Event.zero_grad ("optim"), Event.backward loss false,
       Event.optim_step ("optim")]) ∧
    (rv.1 = logits ∧
     rv.2.1.params = c.params ∧
     rv.2.1.avg_meter = m ∧
     rv.2.1.logs = dictUpdate batch ("epoch_logs")
       [(("valid loss"), m.debias_loss)] ∧
     rv.2.2 = []) ∧
    (rp.1 = logits ∧ rp.2.1 = c ∧ rp.2.2 = []) :=
  ⟨⟨rfl, rfl, rfl, rfl, rfl⟩, ⟨rfl, rfl, rfl, rfl, rfl⟩, ⟨rfl, rfl, rfl⟩⟩

/-- C5: `on_forward_batch("validation", ...)` on `SRGanCore` runs only
the generator forward pass and returns its output on the low-resolution
input; the `hr_images`/targets argument has no effect on the result; no
loss is logged (the final log bundle is empty), no model parameter or
meter changes, and no gradient event occurs. -/
theorem srgan_validation_protocol {G D T : Type} (c : SRGanCore G D T)
    (lr_images hr_images hr_other : T) :
    (c.on_forward_batch ("validation") lr_images hr_images).1 =
      some (c.netG c.gParams lr_images) ∧
    (c.on_forward_batch ("validation") lr_images hr_images).2.1 =
      { c with logs := [] } ∧
    (c.on_forward_batch ("validation") lr_images hr_images).2.2 = [] ∧
    c.on_forward_batch ("validation") lr_images hr_images =
      c.on_forward_batch ("validation") lr_images hr_other :=
  ⟨rfl, rfl, rfl, rfl⟩

/-- C7: a `ClassifierCore` validation batch leaves the model parameters
unchanged and performs no zero-grad, backward or optimizer-step event. -/
theorem classifier_validation_params_unchanged {P T : Type}
    (c : ClassifierCore P T) (inputs targets : T) :
    (c.on_forward_batch ("validation") inputs targets).2.1.params =
      c.params ∧
    (c.on_forward_batch ("validation") inputs targets).2.2 = [] :=
  ⟨rfl, rfl⟩

/-- C6: for both core variants, immediately after `on_new_epoch()` and
before any `on_forward_batch` call, `get_logs` returns the empty
mapping. -/
theorem cores_on_new_epoch_clears_logs {P T G D U : Type}
    (c₁ : ClassifierCore P T) (c₂ : SRGanCore G D U) :
    c₁.on_new_epoch.get_logs = [] ∧ c₂.on_new_epoch.get_logs = [] :=
  ⟨rfl, rfl⟩

/-- C8: on `SRGanCore`, any step outside `{"training", "validation",
"eval"}` — including `"prediction"` — raises no error: `on_forward_batch`
returns `None`, leaves the core exactly as it was apart from the log
bundle being cleared at the start of the call, so `get_logs` is the empty
mapping, and performs no gradient event. -/
theorem srgan_unknown_step_protocol {G D T : Type} (c : SRGanCore G D T)
    (step : String) (inputs targets : T)
    (h₁ : step ≠ ("training")) (h₂ : step ≠ ("validation"))
    (h₃ : step ≠ ("eval")) :
    (c.on_forward_batch step inputs targets).1 = none ∧
    (c.on_forward_batch step inputs targets).2.1 = { c with logs := [] } ∧
    (c.on_forward_batch step inputs targets).2.1.get_logs = [] ∧
    (c.on_forward_batch step inputs targets).2.2 = [] := by
  unfold SRGanCore.on_forward_batch
  simp only [if_neg h₁, if_neg h₂, if_neg h₃]
  exact ⟨trivial, trivial, rfl, trivial⟩

/-- C8 witness: at step `"prediction"` on the concrete `demoGan`. -/
theorem srgan_unknown_step_protocol_wit :
    (("prediction") ≠ ("training") ∧ ("prediction") ≠ ("validation") ∧
      ("prediction") ≠ ("eval")) ∧
    ((demoGan.on_forward_batch ("prediction") 1 0).1 = none ∧
     (demoGan.on_forward_batch ("prediction") 1 0).2.1 =
       { demoGan with logs := [] } ∧
     (demoGan.on_forward_batch ("prediction") 1 0).2.1.get_logs = [] ∧
     (demoGan.on_forward_batch ("prediction") 1 0).2.2 = []) :=
  ⟨by decide,
   srgan_unknown_step_protocol demoGan ("prediction") 1 0
     (by decide) (by decide) (by decide)⟩

/-- C9: `AverageMeter.debias_loss` is well defined after exactly one
`update`: the bias-correction divisor `1 - decay^n` is nonzero at `n = 1`
(for any decay below `1`), the debiased value after one update of `v`
equals `v`, and `n = 0` is special-cased as "no value yet", returning
`0`. -/
theorem average_meter_debias_first_update (decay v : ℚ) (h : decay < 1) :
    1 - decay ^ (((AverageMeter.fresh decay).update v).count) ≠ 0 ∧
    ((AverageMeter.fresh decay).update v).count = 1 ∧
    ((AverageMeter.fresh decay).update v).debias_loss = v ∧
    (AverageMeter.fresh decay).debias_loss = 0 := by
  have hne : (1 : ℚ) - decay ≠ 0 := sub_ne_zero_of_ne (by linarith)
  refine ⟨?_, rfl, ?_, rfl⟩
  · simpa [AverageMeter.fresh, AverageMeter.update] using hne
  · show (if (1 : ℕ) = 0 then 0
      else (decay * 0 + (1 - decay) * v) / (1 - decay ^ (1 : ℕ))) = v
    rw [if_neg one_ne_zero, pow_one, mul_zero, zero_add, mul_comm,
      mul_div_assoc, div_self hne, mul_one]

/-- C9 witness: decay `9/10`, first observed value `5`. -/
theorem average_meter_debias_first_update_wit :
    ((9 : ℚ) / 10 < 1) ∧
    (1 - ((9 : ℚ) / 10) ^
        (((AverageMeter.fresh (9 / 10)).update 5).count) ≠ 0 ∧
     ((AverageMeter.fresh ((9 : ℚ) / 10)).update 5).count = 1 ∧
     ((AverageMeter.fresh ((9 : ℚ) / 10)).update 5).debias_loss = 5 ∧
     (AverageMeter.fresh ((9 : ℚ) / 10)).debias_loss = 0) :=
  ⟨by norm_num, average_meter_debias_first_update (9 / 10) 5 (by norm_num)⟩

/-- C10: every operation of the abstract capability interface `BaseCore`
(`on_train_mode`, `on_eval_mode`, `on_new_epoch`, `to_gpu`, `get_models`,
`get_logs`, `on_forward_batch`) raises `NotImplementedError` when not
overridden. -/
theorem base_core_all_not_implemented (b : BaseCore) :
    b.on_train_mode = Except.error PyExc.NotImplementedError ∧
    b.on_eval_mode = Except.error PyExc.NotImplementedError ∧
    b.on_new_epoch = Except.error PyExc.NotImplementedError ∧
    b.to_gpu = Except.error PyExc.NotImplementedError ∧
    b.get_models = Except.error PyExc.NotImplementedError ∧
    b.get_logs = Except.error PyExc.NotImplementedError ∧
    ∀ (step : String) (inputs : ℚ) (targets : Option ℚ),
      b.on_forward_batch step inputs targets =
        Except.error PyExc.NotImplementedError :=
  ⟨rfl, rfl, rfl, rfl, rfl, rfl, fun _ _ _ => rfl⟩

end Torchlite
